import Mathlib

/-!
Shallow embedding of the `em::minitest` test framework
(`src/include/em/minitest.hpp`), covering the error-chain capture,
comparison and rendering logic of `MustThrow::operator~`, the boolean
assertion `Assert`, and the test runner `RunTests`.
-/

namespace Minitest

/-! ## Error chains and their capture (`AnalyzeCurrentException`) -/

/--
One element of a captured error chain, as handed to the callback of
`AnalyzeCurrentException` (minitest.hpp:363): a (demangled) type name and
the `what()` message.  For an unknown (non-`std::exception`) value the
callback receives `type_name == ""` and `message == nullptr`
(minitest.hpp:409-412); the null pointer is modelled as `none`,
distinct from `some ""`.
-/
structure ChainElem where
  type_name : String
  message : Option String
  deriving DecidableEq, Repr

/--
The value currently propagating, as far as `AnalyzeCurrentException` can
observe it: a foreign (non-`std::exception`) value, a `std::exception`
with no nested cause, or a `std::exception` carrying a nested cause.
-/
inductive Exc where
  | foreign
  | err (type_name : String) (message : String)
  | errNested (type_name : String) (message : String) (inner : Exc)
  deriving DecidableEq, Repr

/--
The outer-to-inner walk of `AnalyzeCurrentException` (minitest.hpp:363-415):
a `std::exception` contributes its type name and message and recurses into
its nested cause if any; a foreign value contributes the single sentinel
element `("", nullptr)` and the walk stops.
-/
def analyzeChain : Exc → List ChainElem
  | .foreign => [⟨"", none⟩]
  | .err t m => [⟨t, some m⟩]
  | .errNested t m inner => ⟨t, some m⟩ :: analyzeChain inner

/-! ## `MustThrow::operator~`: capture, comparison, rendering -/

/--
`MustThrow::Arg` (minitest.hpp:205-222): a type name plus a message, both
plain strings.  Used both for the caught exceptions (filled in by the
capture loop) and for the user-supplied expected exceptions.
-/
structure MTArg where
  type : String
  message : String
  deriving DecidableEq, Repr

/-- `max_num_caught_exceptions` (minitest.hpp:541). -/
def max_num_caught_exceptions : Nat := 128

/-- The message passed to `InternalError` on chain-depth overflow (minitest.hpp:562). -/
def tooDeepMsg : String := "Too deeply nested exception caught in `EM_MUST_THROW()`."

/--
How the capture callback stores one analyzed element into
`caught_exceptions` (minitest.hpp:564-567): the type name is kept, and an
absent (`nullptr`) message is stored as the empty string
(`this_ex.message = message ? message : ""`).
-/
def storeArg (el : ChainElem) : MTArg :=
  ⟨el.type_name, match el.message with | some m => m | none => ""⟩

/--
The capture loop of `MustThrow::operator~` (minitest.hpp:559-567): the
callback runs once per chain element with `n` = `num_caught_exceptions`;
when `n` reaches `max_num_caught_exceptions` before the chain is
exhausted it calls `InternalError` (modelled as `Except.error`),
otherwise it stores the element and continues.
-/
def captureLoop : List ChainElem → Nat → Except String (List MTArg)
  | [], _ => .ok []
  | el :: rest, n =>
    if n = max_num_caught_exceptions then .error tooDeepMsg
    else do
      let tail ← captureLoop rest (n + 1)
      pure (storeArg el :: tail)

/-- Full capture of the currently propagating error inside `MustThrow::operator~`. -/
def captureChain (e : Exc) : Except String (List MTArg) :=
  captureLoop (analyzeChain e) 0

/--
The per-element mismatch test of `MustThrow::operator~`
(minitest.hpp:580-583): `this_ex.type != expected_exception.type ||
this_ex.message != expected_exception.message`.
-/
def argMismatch (a b : MTArg) : Bool :=
  a.type != b.type || a.message != b.message

/--
The `have_mismatch` flag computed by `MustThrow::operator~`: for each
caught index `i`, if `i < num_expected_exceptions` the caught and
expected elements are compared (minitest.hpp:570-588); afterwards a
count mismatch also sets the flag (minitest.hpp:639-640).
-/
def chainMismatch (caught expected : List MTArg) : Bool :=
  ((List.range caught.length).any fun i =>
      decide (i < expected.length) &&
      (match caught[i]?, expected[i]? with
       | some c, some ex => argMismatch c ex
       | _, _ => false))
  || decide (caught.length ≠ expected.length)

/-- How the body of a check (or of a whole test) can end. -/
inductive BodyExit where
  | completes
  | interrupt
  | throws (e : Exc)
  deriving DecidableEq, Repr

/-- Whether `MustThrow::operator~` returns normally or throws `InterruptTestException`. -/
inductive MTExit where
  | normal
  | interrupt
  deriving DecidableEq, Repr

/--
Observable outcome of `MustThrow::operator~`: whether `*fail_test_ptr`
was set, which `FailCheck` message (if any) was printed
(minitest.hpp:626, 646), and how the call exits.
-/
structure MTResult where
  failTest : Bool
  failureMsg : Option String
  exit : MTExit
  deriving DecidableEq, Repr

/--
`MustThrow::operator~` (minitest.hpp:539-728).  The body runs under
`RunWithCatchImpl` with `rethrow_interrupt = true` (minitest.hpp:554),
so an `InterruptTestException` from the body is rethrown as is.  If the
body completes, `FailCheck("Missing exception")` fires
(minitest.hpp:624-632).  Otherwise the chain is captured (possibly
hitting `InternalError` on depth overflow); an empty expected list
returns early with no failure (minitest.hpp:635-636); else the check
fails with `FailCheck("Incorrect exception")` exactly when
`have_mismatch` (minitest.hpp:639-646).  On failure with
`stop_on_failure`, `InterruptTestException` is thrown
(minitest.hpp:628-629, 725-726).
-/
def mustThrow (stop : Bool) (args : List MTArg) (body : BodyExit) : Except String MTResult :=
  match body with
  | .interrupt => .ok ⟨false, none, .interrupt⟩
  | .completes => .ok ⟨true, some "Missing exception", if stop then .interrupt else .normal⟩
  | .throws e => do
      let caught ← captureChain e
      if args.length = 0 then
        pure ⟨false, none, .normal⟩
      else if chainMismatch caught args then
        pure ⟨true, some "Incorrect exception", if stop then .interrupt else .normal⟩
      else
        pure ⟨false, none, .normal⟩

/-! ## The diff table printed on an incorrect exception -/

/--
`SplitString` (minitest.hpp:277-290) specialised to the separator `"\n"`,
which is the only separator used: splits a message into lines, always
producing at least one (possibly empty) part.
-/
def splitLinesAux : List Char → List Char → List String
  | [], acc => [String.mk acc.reverse]
  | c :: rest, acc =>
    if c = '\n' then String.mk acc.reverse :: splitLinesAux rest []
    else splitLinesAux rest (c :: acc)

/-- Split a message into its lines, as `SplitString(message, "\n", ...)` does. -/
def splitLines (s : String) : List String :=
  splitLinesAux s.data []

/--
`SplitString2` (minitest.hpp:296-323) specialised to `"\n"`: the two
inputs may have null data (modelled as `none`), and the synchronized loop
runs until both are exhausted, calling the callback at least once; a side
that has run out (or was null from the start) supplies a null view,
modelled as `none` in the pair.
-/
def zipLines (a b : Option String) : List (Option String × Option String) :=
  let la := match a with | some s => splitLines s | none => []
  let lb := match b with | some s => splitLines s | none => []
  (List.range (max (max la.length lb.length) 1)).map fun i => (la[i]?, lb[i]?)

/--
One printed row of the diff table of `MustThrow::operator~`
(minitest.hpp:649-722), keeping the cell contents and whether the
separator is `|` (match) or `#` (mismatch); the fixed-width padding is
layout only and is not modelled.  A `msgRow` side that is `none` is the
"ran out of lines" case printed with the `.` marker (minitest.hpp:712, 715).
-/
inductive Row where
  | header
  | typeRow (left : String) (sep_matches : Bool) (right : String)
  | msgRow (caughtLine : Option String) (sep_matches : Bool) (expectedLine : Option String)
  deriving DecidableEq, Repr

/--
The block printed for index `i` of the diff table (minitest.hpp:660-722):
always a type row — left cell the caught type, or `"(unknown)"` for a
present element with empty type, or `"(none)"` if absent
(minitest.hpp:672-686); separator `|` iff both present with equal types
(minitest.hpp:689-692); right cell the expected type or `"(none)"`
(minitest.hpp:695-698) — followed by the message rows from `SplitString2`,
where a side contributes a null view unless it is present with a
non-empty type (minitest.hpp:702-704), and each row's separator is `|`
iff both lines are present and equal (minitest.hpp:714).
-/
def renderBlock (caught expected : Option MTArg) : List Row :=
  (Row.typeRow
    (match caught with
     | some c => if c.type.isEmpty then "(unknown)" else c.type
     | none => "(none)")
    (match caught, expected with
     | some c, some ex => c.type == ex.type
     | _, _ => false)
    (match expected with
     | some ex => ex.type
     | none => "(none)")) ::
  (zipLines
     (match caught with
      | some c => if c.type.isEmpty then none else some c.message
      | none => none)
     (match expected with
      | some ex => if ex.type.isEmpty then none else some ex.message
      | none => none)).map
    fun p => Row.msgRow p.1 (p.1.isSome && p.2.isSome && p.1 == p.2) p.2

/--
The whole diff table printed by `MustThrow::operator~` when
`have_mismatch` holds (minitest.hpp:649-722): a header row, then one
block per index up to the larger of the two counts (minitest.hpp:658-660).
There is no other printing shape: the type row is emitted for every
index unconditionally.
-/
def renderTable (caught expected : List MTArg) : List Row :=
  Row.header ::
  ((List.range (max caught.length expected.length)).map fun i =>
     renderBlock caught[i]? expected[i]?).flatten

/-! ## `Assert` (`EM_CHECK` / `EM_CHECK_SOFT`) -/

/-- How evaluating the probe (the stringized condition) can end. -/
inductive ProbeResult where
  | val (b : Bool)
  | interrupt
  | throws (e : Exc)
  deriving DecidableEq, Repr

/-- How `Assert` itself ends: a normal return, or `InterruptTestException` propagating. -/
inductive AssertOutcome where
  | ret (b : Bool)
  | interrupt
  deriving DecidableEq, Repr

/--
Observable outcome of `Assert` (minitest.hpp:483-536): whether
`*fail_test_ptr` was set, whether the failure was reported as a thrown
exception (`got_exception`, printing the chain instead of
"Evaluated to false"), and how the call ends.
-/
structure AssertResult where
  failTest : Bool
  gotException : Bool
  outcome : AssertOutcome
  deriving DecidableEq, Repr

/--
`Assert` (minitest.hpp:483-536).  The probe runs under `RunWithCatchImpl`
with `rethrow_interrupt = true` (minitest.hpp:520), so a probe that
throws `InterruptTestException` lets it propagate untouched.  A probe
that throws anything else triggers `on_failure`: `got_exception` is set
and `FailAssert` runs, which marks the test failed and, if
`stop_on_failure`, throws `InterruptTestException` (minitest.hpp:512-514).
A probe returning `false` triggers the same `FailAssert` without
`got_exception` (minitest.hpp:526-533).  A probe returning `true` just
returns `true`.
-/
def assertCheck (stop : Bool) (p : ProbeResult) : AssertResult :=
  match p with
  | .val true => ⟨false, false, .ret true⟩
  | .val false => ⟨true, false, if stop then .interrupt else .ret false⟩
  | .interrupt => ⟨false, false, .interrupt⟩
  | .throws _ => ⟨true, true, if stop then .interrupt else .ret false⟩

/-! ## The test runner (`RunTests`) -/

/--
`TestDesc` (minitest.hpp:93-100): a test's identity, ordered
lexicographically by file, then line, then name (the defaulted
`operator<=>`), which is the `std::map` ordering of `TestMap`.
-/
structure TestDesc where
  file : String
  line : Nat
  name : String
  deriving DecidableEq, Repr

/-- The `InternalError` message for a duplicate registration (minitest.hpp:152). -/
def dupTestMsg (d : TestDesc) : String :=
  "A duplicate test was registered at `" ++ d.file ++ ":" ++ toString d.line ++
    "`, named `" ++ d.name ++ "`."

/--
Registration (minitest.hpp:146-157): each test is `try_emplace`d into the
test map keyed by its `TestDesc`; if the key is already present,
`InternalError` fires (modelled as `Except.error`).  Only the key-set
contents matter here, so the map is modelled as the list of registered
descriptors.
-/
def registerAll (ds : List TestDesc) : Except String (List TestDesc) :=
  ds.foldlM
    (fun m d => if m.contains d then Except.error (dupTestMsg d) else Except.ok (m ++ [d]))
    []

/-- `InternalError` terminates the process with exit code `2` (minitest.hpp:325-329). -/
def internalErrorExit : Nat := 2

/-- A registered test together with whether `fail_test` ends up `true` when it runs. -/
structure TestRun where
  fails : Bool
  deriving DecidableEq, Repr

/--
The exit code of `RunTests` (minitest.hpp:732-903): `1` when the test map
is empty (minitest.hpp:741-745), otherwise `0` iff `failed_tests` stayed
empty (minitest.hpp:902).
-/
def runTestsExit (ts : List TestRun) : Nat :=
  if ts.isEmpty then 1
  else if (ts.filter TestRun.fails).isEmpty then 0 else 1

/--
The final summary line of `RunTests` (minitest.hpp:885-900):
`"All N test(s) passed"` when nothing failed — with `"test"` singular
exactly when `N == 1` — and otherwise
`"Ran N test(s), P passed, F FAILED"`.
-/
def runSummary (ts : List TestRun) : String :=
  let failed := ts.filter TestRun.fails
  let total := ts.length
  if failed.isEmpty then
    "All " ++ toString total ++ " test" ++ (if total = 1 then "" else "s") ++ " passed"
  else
    "Ran " ++ toString total ++ " test" ++ (if total = 1 then "" else "s") ++ ", " ++
      toString (total - failed.length) ++ " passed, " ++ toString failed.length ++ " FAILED"

/--
What the runner records for one test, after the body ends: the final
value of `fail_test` and, when an uncaught non-interrupt exception
escaped the body, the chain that `PrintCurrentException` walks and
prints (minitest.hpp:848-858).
-/
structure RunnerStepResult where
  failed : Bool
  uncaughtReport : Option (List ChainElem)
  deriving DecidableEq, Repr

/--
The per-test step of `RunTests` (minitest.hpp:841-859): the body runs
under `RunWithCatchImpl` with `rethrow_interrupt = false`
(minitest.hpp:465-470), so an escaping `InterruptTestException` is
swallowed with no report and `fail_test` keeps whatever value the body's
checks gave it; any other escaping exception runs `on_failure`, which
sets `fail_test = true` and prints the chain via
`PrintCurrentException` (i.e. `AnalyzeCurrentException`, with no depth
cap).  `failFlag` is the value of `fail_test` when the body ends.
-/
def runnerStep (failFlag : Bool) (exit : BodyExit) : RunnerStepResult :=
  match exit with
  | .completes => ⟨failFlag, none⟩
  | .interrupt => ⟨failFlag, none⟩
  | .throws e => ⟨true, some (analyzeChain e)⟩

/-! ## Helper lemmas -/

/-- A capture loop that starts at `n` and fits under the cap stores every element. -/
theorem captureLoop_ok (els : List ChainElem) (n : Nat)
    (h : n + els.length ≤ max_num_caught_exceptions) :
    captureLoop els n = Except.ok (els.map storeArg) := by
  induction els generalizing n with
  | nil => rfl
  | cons el rest ih =>
    simp only [max_num_caught_exceptions, List.length_cons] at h
    have hn : n ≠ max_num_caught_exceptions := by
      simp only [max_num_caught_exceptions]; omega
    simp only [captureLoop, if_neg hn]
    rw [ih (n + 1) (by simp only [max_num_caught_exceptions]; omega)]
    rfl

/-- A capture loop whose elements would push the counter past the cap hits `InternalError`. -/
theorem captureLoop_overflow (els : List ChainElem) (n : Nat)
    (hn : n ≤ max_num_caught_exceptions)
    (h : max_num_caught_exceptions < n + els.length) :
    captureLoop els n = Except.error tooDeepMsg := by
  induction els generalizing n with
  | nil =>
    simp only [List.length_nil, Nat.add_zero] at h
    omega
  | cons el rest ih =>
    simp only [max_num_caught_exceptions, List.length_cons] at hn h
    by_cases hn' : n = max_num_caught_exceptions
    · simp [captureLoop, hn']
    · simp only [captureLoop, if_neg hn']
      rw [ih (n + 1) (by simp only [max_num_caught_exceptions] at hn' ⊢; omega)
            (by simp only [max_num_caught_exceptions]; omega)]
      rfl

/-- A chain of at most 128 elements is captured in full. -/
theorem captureChain_ok (e : Exc) (h : (analyzeChain e).length ≤ max_num_caught_exceptions) :
    captureChain e = Except.ok ((analyzeChain e).map storeArg) :=
  captureLoop_ok _ 0 (by simpa using h)

/-- A chain of more than 128 elements triggers the `InternalError`. -/
theorem captureChain_overflow (e : Exc)
    (h : max_num_caught_exceptions < (analyzeChain e).length) :
    captureChain e = Except.error tooDeepMsg :=
  captureLoop_overflow _ 0 (by simp [max_num_caught_exceptions]) (by simpa using h)

/-- `failed_tests` stays empty exactly when no test set its `fail_test` flag. -/
theorem filter_isEmpty_eq_not_any (l : List TestRun) :
    (l.filter TestRun.fails).isEmpty = !l.any TestRun.fails := by
  induction l with
  | nil => rfl
  | cons a t ih =>
    cases ha : a.fails <;> simp [List.filter_cons, ha, ih]

/-- Reduction of the `Except` bind on a success value. -/
theorem exceptBind_ok {α β : Type} (a : α) (f : α → Except String β) :
    (Except.ok a >>= f) = f a := rfl

/-- Comparing a chain against itself produces no mismatch. -/
theorem chainMismatch_self (C : List MTArg) : chainMismatch C C = false := by
  simp only [chainMismatch, ne_eq, not_true_eq_false, decide_False, Bool.or_false,
    List.any_eq_false, List.mem_range]
  intro i hi
  simp [List.getElem?_eq_getElem hi, argMismatch]

/-! ## Claim theorems -/

/--
C1: for every captured error chain `C` and an empty expected pattern, the
comparison matches: a must-produce-error check whose expected pattern is
empty passes — no failure recorded, no failure message, normal return —
whenever any error escapes its body (and its chain is captured).
-/
theorem mustThrow_empty_pattern_passes (stop : Bool) (e : Exc) (C : List MTArg)
    (h : captureChain e = Except.ok C) :
    mustThrow stop [] (BodyExit.throws e) =
      Except.ok ⟨false, none, MTExit.normal⟩ := by
  simp [mustThrow, h]

/-- Concrete instance of `mustThrow_empty_pattern_passes`. -/
theorem mustThrow_empty_pattern_passes_witness :
    mustThrow true [] (BodyExit.throws (Exc.err "std::runtime_error" "foo")) =
      Except.ok ⟨false, none, MTExit.normal⟩ :=
  mustThrow_empty_pattern_passes true (Exc.err "std::runtime_error" "foo")
    [⟨"std::runtime_error", "foo"⟩] rfl

/--
C5: round-trip — a pattern built directly from a captured chain (same
type names and messages at every index, equal counts) always matches that
chain, so the must-produce-error check passes.
-/
theorem mustThrow_round_trip (stop : Bool) (e : Exc) (C : List MTArg)
    (h : captureChain e = Except.ok C) :
    mustThrow stop C (BodyExit.throws e) =
      Except.ok ⟨false, none, MTExit.normal⟩ := by
  simp only [mustThrow, h, exceptBind_ok]
  rcases C with _ | ⟨a, rest⟩
  · rfl
  · simp only [chainMismatch_self, Bool.false_eq_true, if_false,
      List.length_cons, Nat.succ_ne_zero, if_neg]
    rfl

/-- Concrete instance of `mustThrow_round_trip`. -/
theorem mustThrow_round_trip_witness :
    mustThrow true [⟨"std::logic_error", "while doing stuff:"⟩, ⟨"std::runtime_error", "heh"⟩]
        (BodyExit.throws (Exc.errNested "std::logic_error" "while doing stuff:"
          (Exc.err "std::runtime_error" "heh"))) =
      Except.ok ⟨false, none, MTExit.normal⟩ :=
  mustThrow_round_trip true
    (Exc.errNested "std::logic_error" "while doing stuff:" (Exc.err "std::runtime_error" "heh"))
    [⟨"std::logic_error", "while doing stuff:"⟩, ⟨"std::runtime_error", "heh"⟩] rfl

/-- A nested-exception chain of depth `n + 1`, for exercising the depth cap. -/
def deepExc : Nat → Exc
  | 0 => Exc.err "E" "m"
  | n + 1 => Exc.errNested "E" "m" (deepExc n)

/-- The chain of `deepExc n` has `n + 1` elements. -/
theorem deepExc_len (n : Nat) : (analyzeChain (deepExc n)).length = n + 1 := by
  induction n with
  | zero => rfl
  | succ k ih => simp [deepExc, analyzeChain, ih]

/--
C4: error-chain capture caps the walk over the cause chain at the fixed
bound `max_num_caught_exceptions = 128`: every cause chain deeper than
the bound hits the fatal `InternalError` ("Too deeply nested exception
caught"), and every chain within the bound is captured in full.
-/
theorem capture_depth_cap (e : Exc) :
    (128 < (analyzeChain e).length → captureChain e = Except.error tooDeepMsg) ∧
    ((analyzeChain e).length ≤ 128 →
      captureChain e = Except.ok ((analyzeChain e).map storeArg)) ∧
    max_num_caught_exceptions = 128 :=
  ⟨fun h => captureChain_overflow e h, fun h => captureChain_ok e h, rfl⟩

/-- Concrete instance of `capture_depth_cap`: a chain of 129 elements overflows. -/
theorem capture_depth_cap_witness :
    128 < (analyzeChain (deepExc 128)).length ∧
    captureChain (deepExc 128) = Except.error tooDeepMsg := by
  have hlen : 128 < (analyzeChain (deepExc 128)).length := by
    rw [deepExc_len]
    omega
  exact ⟨hlen, (capture_depth_cap (deepExc 128)).1 hlen⟩

/--
C2 counterexample: when no tests are registered, `RunTests` prints
"No tests to run." and returns `1` — the same code as for failed tests —
not the distinct `InternalError` code `2` the claim requires.
-/
theorem runTests_no_tests_exit_counterexample :
    runTestsExit [] = 1 ∧ runTestsExit [] ≠ internalErrorExit := by
  constructor
  · rfl
  · decide

/--
C2 (amended): the exit status is `0` if all tests passed and `1` if any
test failed; an empty registration set also exits with `1` (not a
distinct code); the distinct code `2` is reserved for the fatal
`InternalError`, which fires on a duplicate test identity and on
error-chain depth overflow.
-/
theorem exit_code_spec (ts : List TestRun) (d : TestDesc) (e : Exc) :
    runTestsExit [] = 1 ∧
    (ts ≠ [] → runTestsExit ts = if ts.any TestRun.fails then 1 else 0) ∧
    internalErrorExit = 2 ∧
    registerAll [d, d] = Except.error (dupTestMsg d) ∧
    (128 < (analyzeChain e).length → captureChain e = Except.error tooDeepMsg) := by
  refine ⟨rfl, ?_, rfl, ?_, fun h => captureChain_overflow e h⟩
  · intro hne
    unfold runTestsExit
    rw [if_neg (by simpa using hne), filter_isEmpty_eq_not_any]
    cases hb : ts.any TestRun.fails <;> simp [hb]
  · simp [registerAll, List.foldlM, exceptBind_ok]

/-- Concrete instance of `exit_code_spec`: one failing test exits `1`, deep chain overflows. -/
theorem exit_code_spec_witness :
    runTestsExit [⟨true⟩] = 1 ∧ captureChain (deepExc 128) = Except.error tooDeepMsg := by
  have h := exit_code_spec [⟨true⟩] ⟨"base.cpp", 9, "pass"⟩ (deepExc 128)
  constructor
  · rw [h.2.1 (by decide)]
    rfl
  · exact h.2.2.2.2 (by rw [deepExc_len]; omega)

/--
C6: during a test body, any escaping error that is not the designated
interrupt signal (`InterruptTestException`) marks the whole test failed
and its chain is captured and rendered; the interrupt signal ends the
body but is never itself reported as an additional failure — the
runner's failure flag keeps exactly the value the body's checks gave it
and no uncaught-exception report is made.
-/
theorem runner_uncaught_vs_interrupt (f : Bool) (e : Exc) :
    runnerStep f (BodyExit.throws e) = ⟨true, some (analyzeChain e)⟩ ∧
    runnerStep f BodyExit.interrupt = ⟨f, none⟩ :=
  ⟨rfl, rfl⟩

/--
C7 counterexample: a must-produce-error check whose body raises the
dedicated interrupt signal does not report a MissingError failure — the
check rethrows the interrupt with `fail_test` untouched and no failure
message, which is not the MissingError outcome the claim requires.
-/
theorem mustThrow_interrupt_counterexample :
    mustThrow true [] BodyExit.interrupt = Except.ok ⟨false, none, MTExit.interrupt⟩ ∧
    (⟨false, none, MTExit.interrupt⟩ : MTResult) ≠
      ⟨true, some "Missing exception", MTExit.interrupt⟩ :=
  ⟨rfl, by decide⟩

/--
C7 (amended): a must-produce-error check whose body raises the dedicated
interrupt signal rethrows it as is (the body ran under
`RunWithCatchImpl` with `rethrow_interrupt = true`), ending the test
body; it is not treated as "completed without an externally-visible
error", no MissingError failure is reported, and the test runner then
swallows the interrupt without recording any additional failure.
-/
theorem mustThrow_interrupt_propagates (stop : Bool) (args : List MTArg) :
    mustThrow stop args BodyExit.interrupt = Except.ok ⟨false, none, MTExit.interrupt⟩ ∧
    runnerStep false BodyExit.interrupt = ⟨false, none⟩ :=
  ⟨rfl, rfl⟩

/--
C8 counterexample: the absent/empty message distinction is not preserved
by element comparison.  A foreign value is captured as the sentinel
element with empty display name and absent (`nullptr`) message, but
`MustThrow::operator~` stores that message as the empty string, so a
must-throw check comparing that chain against a pattern element with an
empty display name and an *empty-string* message finds no mismatch and
passes: absent compares equal to empty.
-/
theorem absent_message_counterexample :
    analyzeChain Exc.foreign = [⟨"", none⟩] ∧
    captureChain Exc.foreign = Except.ok [⟨"", ""⟩] ∧
    mustThrow true [⟨"", ""⟩] (BodyExit.throws Exc.foreign) =
      Except.ok ⟨false, none, MTExit.normal⟩ :=
  ⟨rfl, rfl, rfl⟩

/--
C8 (amended): a sentinel "unknown" chain element has an empty display
name and an absent (`nullptr`) message at capture time, distinct from an
empty string there; but `MustThrow::operator~` stores every captured
message with `message ? message : ""`, collapsing the absent message to
the empty string, so the element comparison treats an absent message as
equal to an empty-string message.
-/
theorem capture_collapses_absent_message (e : Exc) (C : List MTArg)
    (h : captureChain e = Except.ok C) :
    C = (analyzeChain e).map storeArg ∧
    analyzeChain Exc.foreign = [⟨"", none⟩] ∧
    storeArg ⟨"", none⟩ = ⟨"", ""⟩ ∧
    argMismatch (storeArg ⟨"", none⟩) ⟨"", ""⟩ = false := by
  refine ⟨?_, rfl, rfl, rfl⟩
  by_cases hlen : (analyzeChain e).length ≤ max_num_caught_exceptions
  · have := captureChain_ok e hlen
    rw [this] at h
    exact (Except.ok.injEq _ _).mp h.symm
  · have := captureChain_overflow e (by omega)
    rw [this] at h
    exact absurd h (by simp)

/-- Concrete instance of `capture_collapses_absent_message`. -/
theorem capture_collapses_absent_message_witness :
    [(⟨"", ""⟩ : MTArg)] = (analyzeChain Exc.foreign).map storeArg :=
  (capture_collapses_absent_message Exc.foreign [⟨"", ""⟩] rfl).1

/--
C9 counterexample: with exactly one passing test the summary line is
"All 1 test passed" — singular "test" — not "All 1 tests passed" as the
claim states.
-/
theorem summary_singular_counterexample :
    runSummary [⟨false⟩] = "All 1 test passed" ∧
    runSummary [⟨false⟩] ≠ "All 1 tests passed" := by
  constructor
  · rfl
  · decide

/--
C9 (amended): when a suite of exactly one test runs and the test body
never fails, the final summary line is "All 1 test passed" and
`RunTests` returns exit code 0.
-/
theorem single_passing_test_summary (t : TestRun) (h : t.fails = false) :
    runSummary [t] = "All 1 test passed" ∧ runTestsExit [t] = 0 := by
  obtain ⟨b⟩ := t
  subst h
  exact ⟨rfl, rfl⟩

/-- Concrete instance of `single_passing_test_summary`. -/
theorem single_passing_test_summary_witness :
    runSummary [⟨false⟩] = "All 1 test passed" ∧ runTestsExit [⟨false⟩] = 0 :=
  single_passing_test_summary ⟨false⟩ rfl

/--
C10 counterexample: with `stop_on_failure = true` (`EM_CHECK`) and a
probe that evaluates to `false`, `Assert` does not return `false` — it
throws `InterruptTestException` instead of returning at all.
-/
theorem assert_hard_false_counterexample :
    (assertCheck true (ProbeResult.val false)).outcome = AssertOutcome.interrupt ∧
    (assertCheck true (ProbeResult.val false)).outcome ≠ AssertOutcome.ret false := by
  constructor
  · rfl
  · decide

/--
C10 (amended): `Assert` returns `true` iff the probe evaluated to `true`
with no exception escaping; with `stop_on_failure = false`
(`EM_CHECK_SOFT`) it returns `false` both when the probe evaluates to
`false` and when a non-interrupt exception escapes the probe; with
`stop_on_failure = true` (`EM_CHECK`) those two failure cases throw the
interrupt signal instead of returning.
-/
theorem assert_return_value_spec (stop : Bool) (p : ProbeResult) :
    ((assertCheck stop p).outcome = AssertOutcome.ret true ↔ p = ProbeResult.val true) ∧
    ((assertCheck false p).outcome = AssertOutcome.ret false ↔
      (p = ProbeResult.val false ∨ ∃ e, p = ProbeResult.throws e)) ∧
    ((assertCheck true p).outcome = AssertOutcome.interrupt ↔ p ≠ ProbeResult.val true) := by
  rcases p with b | _ | e
  · cases b <;> cases stop <;> simp [assertCheck]
  · cases stop <;> simp [assertCheck]
  · cases stop <;> simp [assertCheck]

/-- Concrete instance of `assert_return_value_spec`. -/
theorem assert_return_value_spec_witness :
    (assertCheck false (ProbeResult.val false)).outcome = AssertOutcome.ret false :=
  (assert_return_value_spec false (ProbeResult.val false)).2.1.mpr (Or.inl rfl)

/--
The chain caught by the fixture
`EM_MUST_THROW_SOFT( throw std::runtime_error("blah") )( std::runtime_error("bleh") )`
(test/base.cpp:163).
-/
def fixCaught : List MTArg := [⟨"std::runtime_error", "blah"⟩]

/-- The expected pattern of the same fixture: same type, different message. -/
def fixExpected : List MTArg := [⟨"std::runtime_error", "bleh"⟩]

/--
C3: evaluation of the diff rendering at the message-only fixture of
test/base.cpp:163 — the counts are equal and the display names match at
every index (only the messages differ), the exact situation in which the
claim requires each block to collapse to message rows alone; yet the
code renders the one and only table shape it has, with a type row
emitted for this index, because `MustThrow::operator~` has no
presentation-mode branch at all (minitest.hpp:649-722).
-/
theorem render_message_only_fixture_shows_type_row :
    fixCaught.length = fixExpected.length ∧
    fixCaught.map MTArg.type = fixExpected.map MTArg.type ∧
    fixCaught.map MTArg.message ≠ fixExpected.map MTArg.message ∧
    renderTable fixCaught fixExpected =
      [Row.header,
       Row.typeRow "std::runtime_error" true "std::runtime_error",
       Row.msgRow (some "blah") false (some "bleh")] := by
  refine ⟨rfl, rfl, by decide, ?_⟩
  rfl

end Minitest
